import Mathlib

/-!
Verification of the avatar processing service template (`src/template.py`):
a shallow embedding of `AvatarProcessingService` — `submit_job`,
`get_job_status`, `call_moderation_api`, `_generate_mock_avatar_url` — and
proofs about the job lifecycle, moderation-response handling, and the job
store.

Modelling notes:
- Python dictionary keys are either `uuid.UUID` objects or `str` values in
  this program; `PyKey` is that sum.  A `uuid.UUID` value never compares
  equal to a `str` value in Python, matching the derived equality here.
- Nondeterministic interpreter inputs (the value returned by
  `uuid.uuid4()`, the readings of `time.time()` and `datetime.now()`, the
  outcome of the `requests.post` call, and the process hash function
  `hash`) are explicit parameters, as `SubmitEnv` and `PyEnv`.
- Exceptions are modelled by `Except String`, the error carrying `str(e)`.
  `submit_job` is a total function here because the Python code wraps the
  moderation call in `except Exception`, so every path returns a job.
-/

/-- Python dictionary-key values of this program: a `uuid.UUID` (identified
by its 128-bit value) or a `str`.  In Python `UUID.__eq__` against a `str`
is `False`, as with the derived decidable equality here. -/
inductive PyKey where
  | uuid (n : Nat)
  | str (s : String)
deriving DecidableEq, Repr

/-- The `ModerationResponse` dataclass: `is_approved: bool`,
`reason: Optional[str] = None`. -/
structure ModerationResponse where
  is_approved : Bool
  reason : Option String := none
deriving DecidableEq, Repr

/-- The `AvatarJob` dataclass.  `id` is annotated `str` in the source but
`submit_job` assigns a `uuid.UUID` object to it, so the field is a `PyKey`.
`created_at` is the `datetime.now()` reading at construction, abstracted
to a number. -/
structure AvatarJob where
  id : PyKey
  user_id : String
  status : String
  input_data : String
  output_url : Option String := none
  created_at : Nat := 0
  error_message : Option String := none
deriving DecidableEq, Repr

/-- Constructor arguments of `AvatarProcessingService.__init__`. -/
structure ServiceConfig where
  moderation_api_url : String
  api_token : String
deriving DecidableEq, Repr

/-- The JSON body of a moderation response.  The outer `Option` is field
presence in the JSON object; for `reason` the inner `Option` distinguishes
a JSON string from JSON `null` (Python `None`). -/
structure ModerationBody where
  approved : Option Bool
  reason : Option (Option String)
deriving DecidableEq, Repr

/-- Outcome of the `requests.post` call, an interpreter input:
either the call raised (network failure, timeout, ...) with `str(e) = msg`,
or an HTTP response arrived with the given status code and body
(`none` body = `response.json()` cannot parse it). -/
inductive HttpOutcome where
  | exn (msg : String)
  | resp (status : Nat) (body : Option ModerationBody)
deriving DecidableEq, Repr

/-- Process-level interpreter state: Python's builtin `hash`, fixed for
the lifetime of one process run (`PYTHONHASHSEED`), used by
`_generate_mock_avatar_url`. -/
structure PyEnv where
  pyHash : String → Int

/-- Interpreter inputs consumed by one `submit_job` call: the
`uuid.uuid4()` value, the `datetime.now()` reading, the rendering of the
`time.time()` reading inside the f-string of `_generate_mock_avatar_url`,
and the outcome of the HTTP request. -/
structure SubmitEnv where
  fresh_uuid : Nat
  created_at : Nat
  clock : String
  outcome : HttpOutcome
deriving DecidableEq, Repr

/-- The in-memory job store `self._jobs`, a dictionary keyed by job id.
Insertion is modelled by prepending; lookup takes the most recent binding,
which matches dictionary overwrite-on-insert semantics. -/
abbrev JobStore := List (PyKey × AvatarJob)

/-- Dictionary lookup: `d[k]` / `k in d` on `self._jobs`. -/
def dict_get (k : PyKey) : JobStore → Option AvatarJob
  | [] => none
  | (k2, v) :: rest => if k = k2 then some v else dict_get k rest

/-- Dictionary insertion `self._jobs[k] = v`. -/
def dict_set (k : PyKey) (v : AvatarJob) (st : JobStore) : JobStore :=
  (k, v) :: st

/-- Rendering `str(KeyError(k))` in Python renders as the key in single quotes. -/
def keyErrorMsg (k : String) : String :=
  "\x27" ++ k ++ "\x27"

/-- Rendering `str` of the `json.JSONDecodeError` raised by `response.json()` on an
unparseable body. -/
def jsonDecodeErrMsg : String :=
  "Expecting value: line 1 column 1 (char 0)"

/-- Model of `response.raise_for_status()`: raises `requests.HTTPError` exactly for
status codes 400–599, with a message naming the status code, the error
class and the url; returns normally (`none`) otherwise. -/
def raise_for_status (status : Nat) (url : String) : Option String :=
  if 400 ≤ status ∧ status < 500 then
    some (toString status ++ " Client Error: for url: " ++ url)
  else if 500 ≤ status ∧ status < 600 then
    some (toString status ++ " Server Error: for url: " ++ url)
  else
    none

/-- The outbound HTTP request built by `call_moderation_api` lines 141–151:
`requests.post(self.moderation_api_url, headers=headers, data=data)`.
The `timeout` field is the keyword argument of `requests.post`; the source
passes none, and the `requests` default is `None` (wait forever). -/
structure HttpRequest where
  url : String
  authorization : String
  body_content : String
  body_user_id : String
  timeout : Option Nat
deriving DecidableEq, Repr

/-- Request construction in `call_moderation_api`: headers, form data and
the absent `timeout` keyword. -/
def moderation_request (cfg : ServiceConfig) (content user_id : String) :
    HttpRequest :=
  { url := cfg.moderation_api_url
  , authorization := "Bearer " ++ cfg.api_token
  , body_content := content
  , body_user_id := user_id
  , timeout := none }

/-- Model of `call_moderation_api(content, user_id)`: posts `moderation_request`,
then `raise_for_status()`, then `response.json()`, then builds
`ModerationResponse(is_approved=_body["approved"], reason=_body["reason"])`.
Both subscript accesses raise `KeyError` on an absent field.  Any raised
exception is the `.error` branch, carrying `str(e)`. -/
def call_moderation_api (cfg : ServiceConfig) (content user_id : String)
    (outcome : HttpOutcome) : Except String ModerationResponse :=
  let _request := moderation_request cfg content user_id
  match outcome with
  | .exn msg => .error msg
  | .resp status body =>
    match raise_for_status status cfg.moderation_api_url with
    | some msg => .error msg
    | none =>
      match body with
      | none => .error jsonDecodeErrMsg
      | some b =>
        match b.approved with
        | none => .error (keyErrorMsg "approved")
        | some ap =>
          match b.reason with
          | none => .error (keyErrorMsg "reason")
          | some r => .ok { is_approved := ap, reason := r }

/-- Model of `_generate_mock_avatar_url(prompt)`:
`f"https://avatars.example.com/\x7bhash(prompt)\x7d_\x7btime.time()\x7d.png"`,
with `now` the rendering of the `time.time()` reading. -/
def _generate_mock_avatar_url (env : PyEnv) (prompt : String) (now : String) :
    String :=
  "https://avatars.example.com/" ++ toString (env.pyHash prompt) ++ "_" ++
    now ++ ".png"

/-- Result of `submit_job`: the returned job and the job store afterwards. -/
structure SubmitResult where
  job : AvatarJob
  store : JobStore
deriving DecidableEq, Repr

/-- Model of `submit_job(user_id, input_data)`: build the pending job with a fresh
`uuid.uuid4()` id and the mock url, insert it into `self._jobs`, run the
moderation call under `try/except Exception`, and set the terminal status.
In Python the stored record and `_job` are the same object, so the status
mutation after the insert is visible through the store: the model therefore
maps the id to the final job. -/
def submit_job (env : PyEnv) (cfg : ServiceConfig) (st : JobStore)
    (user_id input_data : String) (se : SubmitEnv) : SubmitResult :=
  let job0 : AvatarJob :=
    { id := PyKey.uuid se.fresh_uuid
    , user_id := user_id
    , status := "pending"
    , input_data := input_data
    , output_url := some (_generate_mock_avatar_url env input_data se.clock)
    , created_at := se.created_at
    , error_message := none }
  let final : AvatarJob :=
    match call_moderation_api cfg input_data user_id se.outcome with
    | .ok response =>
      if response.is_approved then
        { job0 with status := "completed", error_message := none }
      else
        { job0 with status := "rejected", error_message := response.reason }
    | .error e =>
      { job0 with status := "failed", error_message := some e }
  { job := final, store := dict_set (PyKey.uuid se.fresh_uuid) final st }

/-- Model of `get_job_status(job_id)`: `if job_id in self._jobs: return
self._jobs[job_id]` else `return None`. -/
def get_job_status (st : JobStore) (job_id : PyKey) : Option AvatarJob :=
  match dict_get job_id st with
  | some job => some job
  | none => none

/-- Concrete process environment for evaluation: any fixed hash function. -/
def envC : PyEnv :=
  { pyHash := fun _ => 42 }

/-- Concrete service configuration, as in `main()`. -/
def cfgC : ServiceConfig :=
  { moderation_api_url := "https://api.example.com"
  , api_token := "your-api-token-here" }

/-! ## Helper lemmas -/

theorem string_data_nil_iff (s : String) : s.data = [] ↔ s = "" := by
  constructor
  · intro h
    apply String.ext
    rw [h]
  · intro h
    rw [h]

theorem append_ne_empty_right (a b : String) (hb : b ≠ "") : a ++ b ≠ "" := by
  intro h
  have hd : (a ++ b).data = [] := by rw [h]
  rw [String.data_append] at hd
  rcases List.append_eq_nil.mp hd with ⟨_, hbd⟩
  exact hb ((string_data_nil_iff b).mp hbd)

theorem append_ne_empty_left (a b : String) (ha : a ≠ "") : a ++ b ≠ "" := by
  intro h
  have hd : (a ++ b).data = [] := by rw [h]
  rw [String.data_append] at hd
  rcases List.append_eq_nil.mp hd with ⟨had, _⟩
  exact ha ((string_data_nil_iff a).mp had)

theorem keyErrorMsg_ne_empty (k : String) : keyErrorMsg k ≠ "" := by
  unfold keyErrorMsg
  exact append_ne_empty_right _ _ (by decide)

theorem raise_for_status_ne_empty (status : Nat) (url msg : String)
    (h : raise_for_status status url = some msg) : msg ≠ "" := by
  unfold raise_for_status at h
  split at h
  · cases h
    exact append_ne_empty_left _ _ (append_ne_empty_right _ _ (by decide))
  · split at h
    · cases h
      exact append_ne_empty_left _ _ (append_ne_empty_right _ _ (by decide))
    · cases h

theorem mock_url_inj (env : PyEnv) (p t1 t2 : String)
    (h : _generate_mock_avatar_url env p t1 = _generate_mock_avatar_url env p t2) :
    t1 = t2 := by
  unfold _generate_mock_avatar_url at h
  have hd := congrArg String.data h
  simp only [String.data_append] at hd
  have h1 := List.append_cancel_right hd
  have h2 := List.append_cancel_left h1
  exact String.ext h2

theorem submit_job_id (env : PyEnv) (cfg : ServiceConfig) (st : JobStore)
    (u d : String) (se : SubmitEnv) :
    (submit_job env cfg st u d se).job.id = PyKey.uuid se.fresh_uuid := by
  unfold submit_job
  dsimp only
  split
  · split <;> rfl
  · rfl

theorem submit_job_output_url (env : PyEnv) (cfg : ServiceConfig) (st : JobStore)
    (u d : String) (se : SubmitEnv) :
    (submit_job env cfg st u d se).job.output_url
      = some (_generate_mock_avatar_url env d se.clock) := by
  unfold submit_job
  dsimp only
  split
  · split <;> rfl
  · rfl

theorem submit_job_store (env : PyEnv) (cfg : ServiceConfig) (st : JobStore)
    (u d : String) (se : SubmitEnv) :
    (submit_job env cfg st u d se).store
      = dict_set (PyKey.uuid se.fresh_uuid) (submit_job env cfg st u d se).job st :=
  rfl

theorem dict_get_eq_none (k : PyKey) (st : JobStore)
    (h : ∀ j : AvatarJob, (k, j) ∉ st) : dict_get k st = none := by
  induction st with
  | nil => rfl
  | cons p rest ih =>
    obtain ⟨k2, v⟩ := p
    rw [dict_get, if_neg]
    · exact ih (fun j hj => h j (List.mem_cons_of_mem _ hj))
    · intro hk
      exact h v (by rw [hk]; exact List.mem_cons_self _ _)

theorem dict_get_str_none (st : JobStore) (s : String)
    (h : ∀ k j, (k, j) ∈ st → ∃ n, k = PyKey.uuid n) :
    dict_get (PyKey.str s) st = none := by
  induction st with
  | nil => rfl
  | cons p rest ih =>
    obtain ⟨k2, v⟩ := p
    rw [dict_get, if_neg]
    · exact ih (fun k j hm => h k j (List.mem_cons_of_mem _ hm))
    · intro hk
      obtain ⟨n, hn⟩ := h k2 v (List.mem_cons_self _ _)
      rw [← hk] at hn
      exact PyKey.noConfusion hn

/-! ## Claim theorems -/

/-- C2: for every submission for which the moderation call returns a result
with `approved = true`, the job returned by `submit_job` has status
`"completed"` and `error_message` null. -/
theorem C2_approved_completed (env : PyEnv) (cfg : ServiceConfig)
    (st : JobStore) (u d : String) (se : SubmitEnv) (r : ModerationResponse)
    (hok : call_moderation_api cfg d u se.outcome = Except.ok r)
    (hap : r.is_approved = true) :
    (submit_job env cfg st u d se).job.status = "completed" ∧
    (submit_job env cfg st u d se).job.error_message = none := by
  unfold submit_job
  rw [hok]
  simp [hap]

/-- Witness for C2: a concrete 200 response with `approved: true`. -/
theorem C2_approved_completed_witness :
    call_moderation_api cfgC "robot" "user123"
        (HttpOutcome.resp 200
          (some { approved := some true, reason := some (some "Content appears safe") }))
      = Except.ok { is_approved := true, reason := some "Content appears safe" } ∧
    ((submit_job envC cfgC [] "user123" "robot"
        { fresh_uuid := 7, created_at := 0, clock := "100.25",
          outcome := HttpOutcome.resp 200
            (some { approved := some true, reason := some (some "Content appears safe") }) }).job.status
        = "completed" ∧
      (submit_job envC cfgC [] "user123" "robot"
        { fresh_uuid := 7, created_at := 0, clock := "100.25",
          outcome := HttpOutcome.resp 200
            (some { approved := some true, reason := some (some "Content appears safe") }) }).job.error_message
        = none) :=
  ⟨by rfl,
    C2_approved_completed envC cfgC [] "user123" "robot"
      { fresh_uuid := 7, created_at := 0, clock := "100.25",
        outcome := HttpOutcome.resp 200
          (some { approved := some true, reason := some (some "Content appears safe") }) }
      { is_approved := true, reason := some "Content appears safe" }
      (by rfl) rfl⟩

/-- C3: for every submission for which the moderation call returns a result
with `approved = false` and a reason string, the job returned by
`submit_job` has status `"rejected"` and `error_message` equal to that
reason. -/
theorem C3_rejected_reason (env : PyEnv) (cfg : ServiceConfig)
    (st : JobStore) (u d : String) (se : SubmitEnv) (r : ModerationResponse)
    (reason : String)
    (hok : call_moderation_api cfg d u se.outcome = Except.ok r)
    (hap : r.is_approved = false) (hr : r.reason = some reason) :
    (submit_job env cfg st u d se).job.status = "rejected" ∧
    (submit_job env cfg st u d se).job.error_message = some reason := by
  unfold submit_job
  rw [hok]
  simp [hap, hr]

/-- Witness for C3: a concrete 200 response with `approved: false` and
reason `"unsafe"`. -/
theorem C3_rejected_reason_witness :
    call_moderation_api cfgC "robot" "user123"
        (HttpOutcome.resp 200
          (some { approved := some false, reason := some (some "unsafe") }))
      = Except.ok { is_approved := false, reason := some "unsafe" } ∧
    ((submit_job envC cfgC [] "user123" "robot"
        { fresh_uuid := 7, created_at := 0, clock := "100.25",
          outcome := HttpOutcome.resp 200
            (some { approved := some false, reason := some (some "unsafe") }) }).job.status
        = "rejected" ∧
      (submit_job envC cfgC [] "user123" "robot"
        { fresh_uuid := 7, created_at := 0, clock := "100.25",
          outcome := HttpOutcome.resp 200
            (some { approved := some false, reason := some (some "unsafe") }) }).job.error_message
        = some "unsafe") :=
  ⟨by rfl,
    C3_rejected_reason envC cfgC [] "user123" "robot"
      { fresh_uuid := 7, created_at := 0, clock := "100.25",
        outcome := HttpOutcome.resp 200
          (some { approved := some false, reason := some (some "unsafe") }) }
      { is_approved := false, reason := some "unsafe" } "unsafe"
      (by rfl) rfl rfl⟩

/-- C7: for every id not present in the job store, `get_job_status`
returns `none` ("not found"); being a total function of the model, it
raises nothing. -/
theorem C7_unknown_id_not_found (st : JobStore) (k : PyKey)
    (h : ∀ j : AvatarJob, (k, j) ∉ st) :
    get_job_status st k = none := by
  unfold get_job_status
  rw [dict_get_eq_none k st h]

/-- Witness for C7: lookup of an unknown id on the empty store. -/
theorem C7_unknown_id_not_found_witness :
    (∀ j : AvatarJob, (PyKey.str "no-such-job", j) ∉ ([] : JobStore)) ∧
    get_job_status [] (PyKey.str "no-such-job") = none :=
  ⟨fun _ hj => List.not_mem_nil _ hj,
    C7_unknown_id_not_found [] (PyKey.str "no-such-job")
      (fun _ hj => List.not_mem_nil _ hj)⟩

/-- C9: for every job returned by `submit_job`, a subsequent
`get_job_status` with the returned id (the very `uuid.UUID` value) on the
resulting store yields exactly the returned record, terminal status and
`error_message` included — the store holds the same record that was
mutated and returned. -/
theorem C9_get_after_submit (env : PyEnv) (cfg : ServiceConfig)
    (st : JobStore) (u d : String) (se : SubmitEnv) :
    get_job_status (submit_job env cfg st u d se).store
        (submit_job env cfg st u d se).job.id
      = some (submit_job env cfg st u d se).job := by
  rw [submit_job_store, submit_job_id]
  unfold get_job_status dict_set dict_get
  rw [if_pos rfl]

/-- C1 is refuted as stated, in two ways.  First, the claim counts every
non-2xx HTTP status as a moderation failure, but `raise_for_status` only
raises for 4xx/5xx: a 304 response whose body parses cleanly yields status
`"completed"`, not `"failed"`.  Second, when the transport raises an
exception whose `str` is empty, `error_message` is the empty string, not a
non-empty description. -/
theorem C1_counterexample :
    (¬ (200 ≤ 304 ∧ 304 < 300) ∧
      (submit_job envC cfgC [] "user123" "robot"
        { fresh_uuid := 3, created_at := 0, clock := "100.25",
          outcome := HttpOutcome.resp 304
            (some { approved := some true, reason := some (some "ok") }) }).job.status
        = "completed") ∧
    ((submit_job envC cfgC [] "user123" "robot"
        { fresh_uuid := 3, created_at := 0, clock := "100.25",
          outcome := HttpOutcome.exn "" }).job.status = "failed" ∧
      (submit_job envC cfgC [] "user123" "robot"
        { fresh_uuid := 3, created_at := 0, clock := "100.25",
          outcome := HttpOutcome.exn "" }).job.error_message = some "") := by
  refine ⟨⟨by decide, by rfl⟩, by rfl, by rfl⟩

/-- C1 (amended): whenever the moderation call raises — transport
exception, 4xx/5xx status, unparseable body, or missing field — 
`submit_job` returns (never raises: it is total) a job with status
`"failed"` and `error_message` equal to `str` of the raised exception,
which is non-empty for every failure detected from an HTTP response. -/
theorem C1_failed_on_error (env : PyEnv) (cfg : ServiceConfig)
    (st : JobStore) (u d : String) (se : SubmitEnv) (e : String)
    (hfail : call_moderation_api cfg d u se.outcome = Except.error e) :
    (submit_job env cfg st u d se).job.status = "failed" ∧
    (submit_job env cfg st u d se).job.error_message = some e ∧
    (∀ status body, se.outcome = HttpOutcome.resp status body → e ≠ "") := by
  refine ⟨?_, ?_, ?_⟩
  · unfold submit_job
    rw [hfail]
  · unfold submit_job
    rw [hfail]
  · intro status body hout
    rw [hout] at hfail
    unfold call_moderation_api at hfail
    dsimp only at hfail
    rcases hrs : raise_for_status status cfg.moderation_api_url with _ | msg
    · rw [hrs] at hfail
      match body with
      | none =>
        dsimp only at hfail
        cases hfail
        decide
      | some b =>
        dsimp only at hfail
        match hb : b.approved with
        | none =>
          rw [hb] at hfail
          dsimp only at hfail
          cases hfail
          exact keyErrorMsg_ne_empty _
        | some ap =>
          rw [hb] at hfail
          dsimp only at hfail
          match hr : b.reason with
          | none =>
            rw [hr] at hfail
            dsimp only at hfail
            cases hfail
            exact keyErrorMsg_ne_empty _
          | some r =>
            rw [hr] at hfail
            dsimp only at hfail
            cases hfail
    · rw [hrs] at hfail
      dsimp only at hfail
      cases hfail
      exact raise_for_status_ne_empty status cfg.moderation_api_url e hrs

/-- Witness for C1 (amended): a concrete HTTP 500 response. -/
theorem C1_failed_on_error_witness :
    call_moderation_api cfgC "robot" "user123" (HttpOutcome.resp 500 none)
      = Except.error "500 Server Error: for url: https://api.example.com" ∧
    ((submit_job envC cfgC [] "user123" "robot"
        { fresh_uuid := 3, created_at := 0, clock := "100.25",
          outcome := HttpOutcome.resp 500 none }).job.status = "failed" ∧
      (submit_job envC cfgC [] "user123" "robot"
        { fresh_uuid := 3, created_at := 0, clock := "100.25",
          outcome := HttpOutcome.resp 500 none }).job.error_message
        = some "500 Server Error: for url: https://api.example.com") :=
  ⟨by rfl,
    (C1_failed_on_error envC cfgC [] "user123" "robot"
      { fresh_uuid := 3, created_at := 0, clock := "100.25",
        outcome := HttpOutcome.resp 500 none }
      "500 Server Error: for url: https://api.example.com" (by rfl)).1,
    (C1_failed_on_error envC cfgC [] "user123" "robot"
      { fresh_uuid := 3, created_at := 0, clock := "100.25",
        outcome := HttpOutcome.resp 500 none }
      "500 Server Error: for url: https://api.example.com" (by rfl)).2.1⟩

/-- C4 is refuted as stated: when the API answers 200 with
`{"approved": false, "reason": null}`, the job is `"rejected"` with
`error_message` null, so `error_message` is not non-null on every
rejected job. -/
theorem C4_counterexample :
    (submit_job envC cfgC [] "user123" "robot"
      { fresh_uuid := 3, created_at := 0, clock := "100.25",
        outcome := HttpOutcome.resp 200
          (some { approved := some false, reason := some none }) }).job.status
      = "rejected" ∧
    (submit_job envC cfgC [] "user123" "robot"
      { fresh_uuid := 3, created_at := 0, clock := "100.25",
        outcome := HttpOutcome.resp 200
          (some { approved := some false, reason := some none }) }).job.error_message
      = none := by
  exact ⟨by rfl, by rfl⟩

/-- C4 (amended): every job returned by `submit_job` is in exactly one
terminal state: `"completed"` with `error_message` null, `"rejected"` with
`error_message` equal to the reason the API provided (null exactly when the
API sent a null reason), or `"failed"` with `error_message` the non-null
exception text. -/
theorem C4_terminal_status (env : PyEnv) (cfg : ServiceConfig)
    (st : JobStore) (u d : String) (se : SubmitEnv) :
    ((submit_job env cfg st u d se).job.status = "completed" ∧
      (submit_job env cfg st u d se).job.error_message = none) ∨
    ((submit_job env cfg st u d se).job.status = "rejected" ∧
      ∃ r, call_moderation_api cfg d u se.outcome = Except.ok r ∧
        r.is_approved = false ∧
        (submit_job env cfg st u d se).job.error_message = r.reason) ∨
    ((submit_job env cfg st u d se).job.status = "failed" ∧
      ∃ e, call_moderation_api cfg d u se.outcome = Except.error e ∧
        (submit_job env cfg st u d se).job.error_message = some e) := by
  rcases hc : call_moderation_api cfg d u se.outcome with e | r
  · refine Or.inr (Or.inr ⟨?_, e, rfl, ?_⟩)
    · unfold submit_job
      rw [hc]
    · unfold submit_job
      rw [hc]
  · rcases hap : r.is_approved with _ | _
    · refine Or.inr (Or.inl ⟨?_, r, rfl, hap, ?_⟩)
      · unfold submit_job
        rw [hc]
        simp [hap]
      · unfold submit_job
        rw [hc]
        simp [hap]
    · refine Or.inl ⟨?_, ?_⟩
      · unfold submit_job
        rw [hc]
        simp [hap]
      · unfold submit_job
        rw [hc]
        simp [hap]

/-- C5 is a code bug: `requests.post` in `call_moderation_api` is invoked
without any `timeout` argument, so every outbound moderation request is
built with `timeout = none` — the library default of waiting forever — 
contrary to the claim (and to the file's own implementation notes) that a
bounded timeout is attached. -/
theorem C5_no_timeout (cfg : ServiceConfig) (content user_id : String) :
    (moderation_request cfg content user_id).timeout = none := rfl

/-- C6: the required-field half of the claim holds — a body without
`approved` makes `call_moderation_api` fail (a `KeyError`, caught upstream)
rather than defaulting — but the optional-reason half is a code bug: the
source reads `_body["reason"]` unconditionally, so a body with `approved`
present and `reason` absent also fails with `KeyError` instead of parsing
into a response with `reason` absent. -/
theorem C6_missing_field_behaviour :
    call_moderation_api cfgC "robot" "user123"
        (HttpOutcome.resp 200
          (some { approved := none, reason := some (some "Content appears safe") }))
      = Except.error (keyErrorMsg "approved") ∧
    call_moderation_api cfgC "robot" "user123"
        (HttpOutcome.resp 200 (some { approved := some true, reason := none }))
      = Except.error (keyErrorMsg "reason") :=
  ⟨rfl, rfl⟩

/-- C8 is refuted as stated: two submissions with identical `input_data`
and `user_id` whose `time.time()` readings coincide (the clock has finite
resolution) get identical `output_url` values, because the url is
`hash(prompt)` plus the clock reading and the prompt hash is process-fixed.
The ids (distinct `uuid4` draws) do differ, so the conjunction of the
claim fails on its `output_url` half. -/
theorem C8_counterexample :
    (submit_job envC cfgC [] "user123" "robot"
        { fresh_uuid := 3, created_at := 0, clock := "100.25",
          outcome := HttpOutcome.resp 200
            (some { approved := some true, reason := some (some "ok") }) }).job.id
      ≠ (submit_job envC cfgC
          (submit_job envC cfgC [] "user123" "robot"
            { fresh_uuid := 3, created_at := 0, clock := "100.25",
              outcome := HttpOutcome.resp 200
                (some { approved := some true, reason := some (some "ok") }) }).store
          "user123" "robot"
          { fresh_uuid := 4, created_at := 0, clock := "100.25",
            outcome := HttpOutcome.resp 200
              (some { approved := some true, reason := some (some "ok") }) }).job.id ∧
    (submit_job envC cfgC [] "user123" "robot"
        { fresh_uuid := 3, created_at := 0, clock := "100.25",
          outcome := HttpOutcome.resp 200
            (some { approved := some true, reason := some (some "ok") }) }).job.output_url
      = (submit_job envC cfgC
          (submit_job envC cfgC [] "user123" "robot"
            { fresh_uuid := 3, created_at := 0, clock := "100.25",
              outcome := HttpOutcome.resp 200
                (some { approved := some true, reason := some (some "ok") }) }).store
          "user123" "robot"
          { fresh_uuid := 4, created_at := 0, clock := "100.25",
            outcome := HttpOutcome.resp 200
              (some { approved := some true, reason := some (some "ok") }) }).job.output_url :=
  ⟨by decide, by rfl⟩

/-- C8 (amended): two submissions with identical `input_data` and
`user_id` have distinct ids whenever the two `uuid4` draws differ (uuid
generation is collision-free in practice), and distinct `output_url`
values whenever the two `time.time()` readings differ. -/
theorem C8_distinct_ids_urls (env : PyEnv) (cfg : ServiceConfig)
    (st1 st2 : JobStore) (u d : String) (se1 se2 : SubmitEnv)
    (hu : se1.fresh_uuid ≠ se2.fresh_uuid) (ht : se1.clock ≠ se2.clock) :
    (submit_job env cfg st1 u d se1).job.id
      ≠ (submit_job env cfg st2 u d se2).job.id ∧
    (submit_job env cfg st1 u d se1).job.output_url
      ≠ (submit_job env cfg st2 u d se2).job.output_url := by
  constructor
  · rw [submit_job_id, submit_job_id]
    intro h
    injection h with h2
    exact hu h2
  · rw [submit_job_output_url, submit_job_output_url]
    intro h
    injection h with h2
    exact ht (mock_url_inj env d se1.clock se2.clock h2)

/-- Witness for C8 (amended): distinct uuid draws and distinct clock
readings. -/
theorem C8_distinct_ids_urls_witness :
    (({ fresh_uuid := 3, created_at := 0, clock := "100.25",
          outcome := HttpOutcome.exn "boom" } : SubmitEnv).fresh_uuid
        ≠ ({ fresh_uuid := 4, created_at := 0, clock := "100.75",
              outcome := HttpOutcome.exn "boom" } : SubmitEnv).fresh_uuid ∧
      ({ fresh_uuid := 3, created_at := 0, clock := "100.25",
          outcome := HttpOutcome.exn "boom" } : SubmitEnv).clock
        ≠ ({ fresh_uuid := 4, created_at := 0, clock := "100.75",
              outcome := HttpOutcome.exn "boom" } : SubmitEnv).clock) ∧
    ((submit_job envC cfgC [] "user123" "robot"
        { fresh_uuid := 3, created_at := 0, clock := "100.25",
          outcome := HttpOutcome.exn "boom" }).job.id
      ≠ (submit_job envC cfgC [] "user123" "robot"
          { fresh_uuid := 4, created_at := 0, clock := "100.75",
            outcome := HttpOutcome.exn "boom" }).job.id ∧
      (submit_job envC cfgC [] "user123" "robot"
        { fresh_uuid := 3, created_at := 0, clock := "100.25",
          outcome := HttpOutcome.exn "boom" }).job.output_url
      ≠ (submit_job envC cfgC [] "user123" "robot"
          { fresh_uuid := 4, created_at := 0, clock := "100.75",
            outcome := HttpOutcome.exn "boom" }).job.output_url) :=
  ⟨⟨by decide, by decide⟩,
    C8_distinct_ids_urls envC cfgC [] [] "user123" "robot"
      { fresh_uuid := 3, created_at := 0, clock := "100.25",
        outcome := HttpOutcome.exn "boom" }
      { fresh_uuid := 4, created_at := 0, clock := "100.75",
        outcome := HttpOutcome.exn "boom" }
      (by decide) (by decide)⟩

/-- C10: the id `submit_job` stores and returns is a `uuid.UUID` value
(never a `str`, despite the `str` annotations), the job is present in the
store under that `uuid.UUID` key, and looking it up through
`get_job_status` with any string — in particular the string rendering of
the uuid — answers `none`, provided the store held only uuid keys before
(as every store built by `submit_job` alone does). -/
theorem C10_uuid_id_str_lookup (env : PyEnv) (cfg : ServiceConfig)
    (st : JobStore) (u d : String) (se : SubmitEnv) (s : String)
    (hst : ∀ k j, (k, j) ∈ st → ∃ n, k = PyKey.uuid n) :
    (submit_job env cfg st u d se).job.id = PyKey.uuid se.fresh_uuid ∧
    dict_get (PyKey.uuid se.fresh_uuid) (submit_job env cfg st u d se).store
      = some (submit_job env cfg st u d se).job ∧
    get_job_status (submit_job env cfg st u d se).store (PyKey.str s)
      = none := by
  refine ⟨submit_job_id env cfg st u d se, ?_, ?_⟩
  · rw [submit_job_store]
    unfold dict_set dict_get
    rw [if_pos rfl]
  · rw [submit_job_store]
    unfold get_job_status dict_set
    simp only [dict_get]
    rw [if_neg (fun hk => PyKey.noConfusion hk),
      dict_get_str_none st s hst]

/-- Witness for C10: a submission on the empty store, looked up with the
standard rendering of uuid 3. -/
theorem C10_uuid_id_str_lookup_witness :
    (∀ k j, (k, j) ∈ ([] : JobStore) → ∃ n, k = PyKey.uuid n) ∧
    ((submit_job envC cfgC [] "user123" "robot"
        { fresh_uuid := 3, created_at := 0, clock := "100.25",
          outcome := HttpOutcome.exn "boom" }).job.id = PyKey.uuid 3 ∧
      dict_get (PyKey.uuid 3)
          (submit_job envC cfgC [] "user123" "robot"
            { fresh_uuid := 3, created_at := 0, clock := "100.25",
              outcome := HttpOutcome.exn "boom" }).store
        = some (submit_job envC cfgC [] "user123" "robot"
            { fresh_uuid := 3, created_at := 0, clock := "100.25",
              outcome := HttpOutcome.exn "boom" }).job ∧
      get_job_status
          (submit_job envC cfgC [] "user123" "robot"
            { fresh_uuid := 3, created_at := 0, clock := "100.25",
              outcome := HttpOutcome.exn "boom" }).store
          (PyKey.str "00000000-0000-0000-0000-000000000003")
        = none) :=
  ⟨fun _ _ hj => absurd hj (List.not_mem_nil _),
    C10_uuid_id_str_lookup envC cfgC [] "user123" "robot"
      { fresh_uuid := 3, created_at := 0, clock := "100.25",
        outcome := HttpOutcome.exn "boom" }
      "00000000-0000-0000-0000-000000000003"
      (fun _ _ hj => absurd hj (List.not_mem_nil _))⟩
